import Mathlib

/-!
Shallow embedding of the mint availability and transaction orchestration
logic of the ishvara-mint-ui repository.

The repository consists of near-duplicate page variants.  The embedding
keeps one definition per variant wherever the variants differ:
* `_page`    : the first document of `src/src/app/page.tsx`;
* `_part0`   : `src/unnamed/part_000` (the second document of `page.tsx`
               and `page.backup20260113.tsx` share this logic);
* `_werkend` : `src/src/app/Werkend_page - Copy (20260103).tsx`.

Machine numbers (`itemsLoaded`, `itemsRedeemed`) are modelled as `Int`
(JavaScript numbers under subtraction), lamport amounts and SOL display
values as `Rat` (the code divides by 1e9; all values exercised here are
exact in binary floating point, so `Rat` is faithful on them).
-/

namespace IshvaraMint

/-- The umi `Option` type: a tagged Some/None value.  `unone` models a
present-but-unset optional, distinct from a JavaScript `undefined` field
(which is modelled by wrapping in Lean's `Option`). -/
inductive UOption (α : Type) where
  | usome (value : α)
  | unone
  deriving Repr, DecidableEq

/-- The `solPayment` guard payload: `lamports.basisPoints` and the payment
destination reference. -/
structure SolPayment where
  lamportsBasisPoints : Int
  destination : String
  deriving Repr, DecidableEq

/-- A fetched candy-guard record: its address and the `solPayment` entry of
its `guards` set (umi `Option`). -/
structure GuardRec where
  publicKey : String
  solPayment : UOption SolPayment
  deriving Repr, DecidableEq

/-- A fetched candy-machine record: the fields the pages read. -/
structure MachineRec where
  publicKey : String
  itemsLoaded : Int
  itemsRedeemed : Int
  mintAuthority : String
  collectionMint : String
  authority : String
  deriving Repr, DecidableEq

/-- The React state touched by `retrieveAvailability` and the balance
effect: message, disabled flag, fetched records, counts and price. -/
structure AvailState where
  mintMsg : Option String
  mintDisabled : Bool
  cm : Option MachineRec
  guard : Option GuardRec
  countTotal : Option Int
  countMinted : Option Int
  countRemaining : Option Int
  costInSol : Rat
  deriving Repr, DecidableEq

/-! ## Environment resolution -/

/-- Drop leading whitespace characters. -/
def trimCharsLeft : List Char → List Char
  | [] => []
  | c :: rest => if c.isWhitespace then trimCharsLeft rest else c :: rest

/-- JavaScript `String.prototype.trim`: strip whitespace from both ends
(kernel-reducible, unlike the iterator-based library trim). -/
def jsTrim (s : String) : String :=
  ((trimCharsLeft (trimCharsLeft s.toList).reverse).reverse).asString

/-- Wallet adapter network, from `getNetwork`. -/
inductive Network where
  | mainnet
  | testnet
  | devnet
  deriving Repr, DecidableEq

/-- `getNetwork` of `page.tsx`: lowercase and trim `NEXT_PUBLIC_NETWORK`
(absent treated as empty), map devnet/testnet, default mainnet. -/
def getNetwork (env : Option String) : Network :=
  let n := jsTrim ((env.getD "").toLower)
  if n = "devnet" then Network.devnet
  else if n = "testnet" then Network.testnet
  else Network.mainnet

/-- The `cluster` suffix computed in `MintBlock`:
`network === WalletAdapterNetwork.Devnet ? "?cluster=devnet" : ""`. -/
def clusterSuffix (network : Network) : String :=
  if network = Network.devnet then "?cluster=devnet" else ""

/-- The Solscan link template of `MintBlock`:
`https://solscan.io/token/<id><cluster>`. -/
def explorerUrl (network : Network) (mintCreated : String) : String :=
  "https://solscan.io/token/" ++ mintCreated ++ clusterSuffix network

/-- `getCandyMachineId` of `page.tsx` and `part_000`:
`(env || "").trim()` and `id ? id : null`. -/
def getCandyMachineId_page (env : Option String) : Option String :=
  let id := jsTrim (env.getD "")
  if id = "" then none else some id

/-- A quote character in the Werkend variant's strip regex `["']`
(the double quote, or the single quote = code point 39). -/
def isQuoteChar (c : Char) : Bool :=
  c = '"' || c.toNat = 39

/-- Drop one trailing quote character, as the `["']$` alternative of the
regex does. -/
def dropTrailingQuote (cs : List Char) : List Char :=
  match cs.getLast? with
  | some c => if isQuoteChar c then cs.dropLast else cs
  | none => []

/-- The Werkend variant's `.replace` of the pattern that is a leading
quote character or a trailing quote character, applied globally: it
removes at most one quote from each end. -/
def stripSurroundingQuotes (s : String) : String :=
  let afterHead : List Char :=
    match s.toList with
    | c :: rest => if isQuoteChar c then rest else c :: rest
    | [] => []
  (dropTrailingQuote afterHead).asString

/-- `getCandyMachineId` of the Werkend variant: `if (!raw) return null;`
then `raw.trim()` with one surrounding quote character stripped per side.
Note the null check runs on the raw value, before trimming. -/
def getCandyMachineId_werkend (env : Option String) : Option String :=
  match env with
  | none => none
  | some raw => if raw = "" then none else some (stripSurroundingQuotes (jsTrim raw))

/-! ## Pricing -/

/-- Price resolution of `page.tsx` `retrieveAvailability` (the `isSome`
variant): `solPaymentGuard && isSome(solPaymentGuard)` yields
`lamports.basisPoints / 1e9`, anything else yields 0. -/
def resolvePrice_isSome (guard : Option GuardRec) : Rat :=
  match guard with
  | none => 0
  | some g =>
    match g.solPayment with
    | UOption.usome sp => (sp.lamportsBasisPoints : Rat) / 1000000000
    | UOption.unone => 0

/-- Price resolution of `part_000` (and the second document of
`page.tsx`): `if (solPaymentGuard)` then `unwrapSome` and an unguarded
read of `.lamports`.  When the umi option is None, `unwrapSome` returns
null and the member read throws, modelled as `Except.error`. -/
def resolvePrice_unwrap (guard : Option GuardRec) : Except String Rat :=
  match guard with
  | none => Except.ok 0
  | some g =>
    match g.solPayment with
    | UOption.usome sp => Except.ok ((sp.lamportsBasisPoints : Rat) / 1000000000)
    | UOption.unone =>
        Except.error "Cannot read properties of null (reading lamports)"

/-! ## Availability refresh -/

/-- `retrieveAvailability` of `page.tsx` (first document), as a pure state
transformer.  The suspending inputs are passed in: the configured id (after
`getCandyMachineId`), the key-parse result (`publicKey` throws on a
malformed id), the machine fetch result, and the guard fetch result
(`safeFetchCandyGuard` returns null on a miss).  The remaining count uses
`Math.max(0, total - minted)`. -/
def retrieveAvailability_page (cmIdStr : Option String) (parsedKey : Option String)
    (fetchRes : Except String MachineRec) (guardRes : Option GuardRec)
    (st : AvailState) : AvailState :=
  let st0 := { st with mintMsg := none }
  match cmIdStr with
  | none =>
      { st0 with
        mintMsg := some "No candy machine ID found. Set NEXT_PUBLIC_CANDY_MACHINE_ID in Vercel / .env.local.",
        mintDisabled := true }
  | some _ =>
    match parsedKey with
    | none =>
        { st0 with
          mintMsg := some "Invalid candy machine public key. Check NEXT_PUBLIC_CANDY_MACHINE_ID (no quotes/spaces).",
          mintDisabled := true }
    | some _ =>
      match fetchRes with
      | Except.error e =>
          { st0 with
            mintMsg := some ("Could not fetch candy machine. Check RPC/network. Details: " ++ e),
            mintDisabled := true }
      | Except.ok candyMachine =>
          let total := candyMachine.itemsLoaded
          let minted := candyMachine.itemsRedeemed
          let remaining := max 0 (total - minted)
          { st0 with
            cm := some candyMachine,
            countTotal := some total,
            countMinted := some minted,
            countRemaining := some remaining,
            guard := guardRes,
            costInSol := resolvePrice_isSome guardRes,
            mintDisabled := ! decide (0 < remaining) }

/-- `retrieveAvailability` of `part_000`.  Differences from the `page`
variant: `remaining = total - minted` with no clamp, and the price uses the
throwing `unwrapSome` path — a throw lands in the surrounding catch after
the count setters have already run, so the counts stay set while the
message and disabled flag take the fetch-failure values. -/
def retrieveAvailability_part0 (cmIdStr : Option String) (parsedKey : Option String)
    (fetchRes : Except String MachineRec) (guardRes : Option GuardRec)
    (st : AvailState) : AvailState :=
  let st0 := { st with mintMsg := none }
  match cmIdStr with
  | none =>
      { st0 with
        mintMsg := some "Missing NEXT_PUBLIC_CANDY_MACHINE_ID in Vercel env vars.",
        mintDisabled := true }
  | some _ =>
    match parsedKey with
    | none =>
        { st0 with
          mintMsg := some "Invalid candy machine public key. Check NEXT_PUBLIC_CANDY_MACHINE_ID (no quotes/spaces).",
          mintDisabled := true }
    | some _ =>
      match fetchRes with
      | Except.error e =>
          { st0 with
            mintMsg := some ("Could not fetch candy machine. Check RPC/network. Details: " ++ e),
            mintDisabled := true }
      | Except.ok candyMachine =>
          let total := candyMachine.itemsLoaded
          let minted := candyMachine.itemsRedeemed
          let remaining := total - minted
          let st1 :=
            { st0 with
              cm := some candyMachine,
              countTotal := some total,
              countMinted := some minted,
              countRemaining := some remaining,
              guard := guardRes }
          match resolvePrice_unwrap guardRes with
          | Except.error e =>
              { st1 with
                mintMsg := some ("Could not fetch candy machine. Check RPC/network. Details: " ++ e),
                mintDisabled := true }
          | Except.ok cost =>
              { st1 with
                costInSol := cost,
                mintDisabled := ! decide (0 < remaining) }

/-! ## Balance effect (eligibility) -/

/-- `countRemaining !== null && countRemaining > 0`. -/
def remainingPositive (countRemaining : Option Int) : Bool :=
  match countRemaining with
  | some r => decide (0 < r)
  | none => false

/-- `countRemaining !== null && countRemaining <= 0`. -/
def remainingNonPos (countRemaining : Option Int) : Bool :=
  match countRemaining with
  | some r => decide (r ≤ 0)
  | none => false

/-- The `MintBlock` balance effect of `page.tsx`: exit when the wallet is
not connected; for a free mint gate on the remaining count; otherwise read
the balance and compare strictly; a failed read only sets the message. -/
def balanceEffect_page (connected : Bool) (countRemaining : Option Int)
    (costInSol : Rat) (balanceRes : Except String Rat)
    (st : AvailState) : AvailState :=
  if !connected then st
  else if costInSol ≤ 0 then
    { st with mintDisabled := !(remainingPositive countRemaining) }
  else
    match balanceRes with
    | Except.error e =>
        { st with mintMsg := some ("Could not read wallet balance: " ++ e) }
    | Except.ok sol =>
        if sol < costInSol then
          { st with mintMsg := some "Add more SOL to your wallet.", mintDisabled := true }
        else
          { st with mintDisabled := !(remainingPositive countRemaining) }

/-- The `MintBlock` balance effect of `part_000` (and
`page.backup20260113.tsx`): the connection check runs first, then the
sold-out check, then the free-mint check, then the balance comparison. -/
def balanceEffect_part0 (connected : Bool) (countRemaining : Option Int)
    (costInSol : Rat) (balanceRes : Except String Rat)
    (st : AvailState) : AvailState :=
  if !connected then st
  else if remainingNonPos countRemaining then
    { st with mintDisabled := true }
  else if costInSol ≤ 0 then
    { st with mintDisabled := false }
  else
    match balanceRes with
    | Except.error e =>
        { st with mintMsg := some ("Could not read wallet balance: " ++ e) }
    | Except.ok sol =>
        if sol < costInSol then
          { st with mintMsg := some "Not enough SOL in wallet.", mintDisabled := true }
        else
          { st with mintDisabled := false }

/-- The hint `page.tsx` renders in `MintBlock` exactly when the wallet is
not connected (`{!wallet.connected && <p>Connect your wallet to mint.</p>}`). -/
def connectHint_page (connected : Bool) : Option String :=
  if connected then none else some "Connect your wallet to mint."

/-! ## Mint orchestration -/

/-- Token standard passed to `mintV2`. -/
inductive TokenStandard where
  | nonFungible
  | programmableNonFungible
  deriving Repr, DecidableEq

/-- Commitment level requested from `sendAndConfirm`. -/
inductive Commitment where
  | processed
  | confirmed
  | finalized
  deriving Repr, DecidableEq

/-- The options object passed to `sendAndConfirm`. -/
structure SendOptions where
  commitment : Commitment
  skipPreflight : Bool
  deriving Repr, DecidableEq

/-- The `solPayment` entry of the mint-args object: `some({ destination })`. -/
structure SolPaymentMintArgs where
  destination : String
  deriving Repr, DecidableEq

/-- The condition-arguments object (`mintArgs`).  The field is `none` when
left absent (the empty object `{}`), `some` when assigned. -/
structure MintArgs where
  solPayment : Option (UOption SolPaymentMintArgs)
  deriving Repr, DecidableEq

/-- `mintArgs` as built by `page.tsx` (and `part_000`): always the empty
object, regardless of the fetched guard. -/
def buildMintArgs_page (_guard : Option GuardRec) : MintArgs :=
  { solPayment := none }

/-- `mintArgs` as built by the Werkend variant: when the guard set carries
an active `solPayment`, assign `some({ destination })` from the fetched
guard; otherwise leave the object empty. -/
def buildMintArgs_werkend (guard : Option GuardRec) : MintArgs :=
  match guard with
  | none => { solPayment := none }
  | some g =>
    match g.solPayment with
    | UOption.usome sp =>
        { solPayment := some (UOption.usome { destination := sp.destination }) }
    | UOption.unone => { solPayment := none }

/-- One instruction of the composed transaction. -/
inductive Instruction where
  | setComputeUnitLimit (units : Nat)
  | mintV2 (candyMachine : String) (collectionMint : String)
      (collectionUpdateAuthority : String) (nftMint : String)
      (candyGuard : Option String) (mintArgs : MintArgs)
      (tokenStandard : TokenStandard)
  deriving Repr, DecidableEq

/-- `transactionBuilder()`: the empty builder. -/
def emptyBuilder : List Instruction := []

/-- `.add(ix)`: append one instruction to the builder. -/
def addIx (tb : List Instruction) (ix : Instruction) : List Instruction :=
  tb ++ [ix]

/-- The transaction composed by `mintBtnHandler`:
`transactionBuilder().add(setComputeUnitLimit 600000).add(mintV2 ...)`. -/
def buildMintTx (c : MachineRec) (guard : Option GuardRec) (nftMint : String)
    (args : MintArgs) (ts : TokenStandard) : List Instruction :=
  addIx (addIx emptyBuilder (Instruction.setComputeUnitLimit 600000))
    (Instruction.mintV2 c.publicKey c.collectionMint c.authority nftMint
      (Option.map GuardRec.publicKey guard) args ts)

/-- The options every variant passes to `sendAndConfirm`:
`confirm: { commitment: "finalized" }, send: { skipPreflight: false }`. -/
def sendOpts : SendOptions :=
  { commitment := Commitment.finalized, skipPreflight := false }

/-- Result of a mint attempt: an early failure before anything is built or
sent, or a composed transaction submitted with its send options. -/
inductive MintAttempt where
  | earlyFailure (msg : String)
  | submitted (tx : List Instruction) (opts : SendOptions)
  deriving Repr, DecidableEq

/-- `mintBtnHandler` of `page.tsx`: re-check connection, then the loaded
machine record, each failing fast with its message; otherwise compose the
two-instruction transaction (empty `mintArgs`) and submit. -/
def mintBtnHandler_page (connected : Bool) (cm : Option MachineRec)
    (guard : Option GuardRec) (nftMint : String) : MintAttempt :=
  if !connected then MintAttempt.earlyFailure "Connect your wallet first."
  else
    match cm with
    | none => MintAttempt.earlyFailure "Candy Machine not loaded yet. Refresh the page."
    | some c =>
        MintAttempt.submitted
          (buildMintTx c guard nftMint (buildMintArgs_page guard) TokenStandard.nonFungible)
          sendOpts

/-- `mintBtnHandler` of `part_000`: same structure, its own not-loaded
message. -/
def mintBtnHandler_part0 (connected : Bool) (cm : Option MachineRec)
    (guard : Option GuardRec) (nftMint : String) : MintAttempt :=
  if !connected then MintAttempt.earlyFailure "Connect your wallet first."
  else
    match cm with
    | none => MintAttempt.earlyFailure "Candy Machine not loaded (refresh)."
    | some c =>
        MintAttempt.submitted
          (buildMintTx c guard nftMint (buildMintArgs_page guard) TokenStandard.nonFungible)
          sendOpts

/-! ## Concrete sample values -/

/-- Fresh React state before any refresh. -/
def initState : AvailState :=
  { mintMsg := none, mintDisabled := true, cm := none, guard := none,
    countTotal := none, countMinted := none, countRemaining := none,
    costInSol := 0 }

/-- A machine with items still available. -/
def sampleMachine : MachineRec :=
  { publicKey := "CM", itemsLoaded := 100, itemsRedeemed := 1,
    mintAuthority := "MA", collectionMint := "COL", authority := "AUTH" }

/-- A machine whose redeemed count exceeds its loaded count. -/
def overRedeemedMachine : MachineRec :=
  { publicKey := "CM", itemsLoaded := 0, itemsRedeemed := 1,
    mintAuthority := "MA", collectionMint := "COL", authority := "AUTH" }

/-- A guard with an active payment condition of 2e9 lamports. -/
def paidGuard : GuardRec :=
  { publicKey := "G",
    solPayment := UOption.usome { lamportsBasisPoints := 2000000000, destination := "DEST" } }

/-- A guard whose payment condition is present but unset. -/
def unsetGuard : GuardRec :=
  { publicKey := "G", solPayment := UOption.unone }

/-- `s ++ "" = s` for strings. -/
theorem string_append_empty (s : String) : s ++ "" = s := by
  cases s with
  | mk data =>
    show String.mk (data ++ []) = String.mk data
    rw [List.append_nil]

/-! ## Claims -/

/-- C1, counterexample: the `part_000` variant of `retrieveAvailability`
computes `remaining = total - minted` with no clamp, so a completed
refresh that fetched `itemsLoaded = 0`, `itemsRedeemed = 1` stores a
remaining count of `-1`, which is negative and differs from
`max(0, itemsTotal - itemsMinted) = 0`. -/
theorem C1_counterexample :
    (retrieveAvailability_part0 (some "CM") (some "CM")
        (Except.ok overRedeemedMachine) none initState).countRemaining = some (-1) ∧
    (-1 : Int) ≠ max 0 ((0 : Int) - 1) := by
  refine ⟨rfl, by decide⟩

/-- C1, amended: in the `page.tsx` variant of `retrieveAvailability`,
every completed refresh stores a remaining count equal to
`max(0, itemsTotal - itemsMinted)`, which is never negative; the
`part_000`/Werkend/backup variants omit the clamp. -/
theorem C1_remaining_clamped_page :
    ∀ (st : AvailState) (idStr pk : String) (m : MachineRec) (g : Option GuardRec),
      (retrieveAvailability_page (some idStr) (some pk) (Except.ok m) g st).countRemaining
          = some (max 0 (m.itemsLoaded - m.itemsRedeemed)) ∧
      0 ≤ max 0 (m.itemsLoaded - m.itemsRedeemed) := by
  intro st idStr pk m g
  exact ⟨rfl, le_max_left 0 _⟩

/-- C2, counterexample: in the `unwrapSome`-based price resolution
(`part_000` and the second document of `page.tsx`), a payment condition
that is present but explicitly unset does not resolve to 0 — the
unguarded member read of the null returned by `unwrapSome` throws. -/
theorem C2_counterexample :
    resolvePrice_unwrap (some unsetGuard) ≠ Except.ok 0 := by
  simp [resolvePrice_unwrap, unsetGuard]

/-- C2, amended: in the `isSome`-based variant (`page.tsx`
`retrieveAvailability`), the price is 0 when the condition set is null,
when the payment condition is absent or explicitly unset, and exactly 2
for `amountMinorUnits = 2_000_000_000`; the `unwrapSome`-based variants
instead fail on a present-but-unset payment condition. -/
theorem C2_resolvePrice_variants :
    resolvePrice_isSome none = 0 ∧
    (∀ pk : String,
      resolvePrice_isSome (some (GuardRec.mk pk UOption.unone)) = 0) ∧
    (∀ pk dest : String,
      resolvePrice_isSome
        (some (GuardRec.mk pk (UOption.usome (SolPayment.mk 2000000000 dest)))) = 2) ∧
    (∀ pk : String, ∃ e : String,
      resolvePrice_unwrap (some (GuardRec.mk pk UOption.unone)) = Except.error e) := by
  refine ⟨rfl, fun pk => rfl, fun pk dest => ?_, fun pk => ⟨_, rfl⟩⟩
  show ((2000000000 : Int) : Rat) / 1000000000 = 2
  norm_num

/-- C3, counterexample: the `page.tsx` variant of `mintBtnHandler` builds
an empty condition-arguments object even when the fetched condition set
carries an active payment condition, so the destination read at fetch
time is not passed to the mint instruction. -/
theorem C3_counterexample :
    (buildMintArgs_page (some paidGuard)).solPayment = none ∧
    (buildMintArgs_page (some paidGuard)).solPayment
      ≠ some (UOption.usome { destination := "DEST" }) := by
  exact ⟨rfl, by decide⟩

/-- C3, amended: only the Werkend variant of `mintBtnHandler` round-trips
the payment destination — when the fetched condition set carries an
active payment condition, its condition-arguments object includes that
condition's destination reference; the `page.tsx` variant always passes
an empty condition-arguments object. -/
theorem C3_destination_roundtrip :
    ∀ (g : GuardRec) (sp : SolPayment), g.solPayment = UOption.usome sp →
      (buildMintArgs_werkend (some g)).solPayment
        = some (UOption.usome { destination := sp.destination }) := by
  intro g sp h
  simp [buildMintArgs_werkend, h]

/-- Witness for C3: a guard with an active payment condition whose
destination `"DEST"` appears in the Werkend condition-arguments. -/
theorem C3_destination_roundtrip_witness :
    (buildMintArgs_werkend (some paidGuard)).solPayment
      = some (UOption.usome { destination := "DEST" }) :=
  C3_destination_roundtrip paidGuard
    { lamportsBasisPoints := 2000000000, destination := "DEST" } rfl

/-- C4: in both cited balance effects the wallet-connection check runs
before the sold-out check: with the wallet disconnected and remaining = 0
the effect exits unchanged — it neither disables nor reports sold-out —
while the same state with the wallet connected takes the sold-out branch
(`part_000`); the reason the page reports for a disconnected wallet is
the connect hint, not a sold-out message. -/
theorem C4_connection_checked_first :
    ∀ (st : AvailState) (cost : Rat) (bal : Except String Rat),
      balanceEffect_part0 false (some 0) cost bal st = st ∧
      balanceEffect_page false (some 0) cost bal st = st ∧
      balanceEffect_part0 true (some 0) cost bal st = { st with mintDisabled := true } ∧
      connectHint_page false = some "Connect your wallet to mint." := by
  intro st cost bal
  exact ⟨rfl, rfl, rfl, rfl⟩

/-- C5: the transaction composed by `mintBtnHandler` is exactly the
two-instruction list — the compute-budget directive with a 600000 unit
limit first, then the mint instruction referencing the machine, its
authority, the fresh asset identity and the optional guard address — and
it is submitted with finalized commitment and pre-flight not skipped. -/
theorem C5_two_instruction_tx :
    ∀ (c : MachineRec) (g : Option GuardRec) (nftMint : String),
      buildMintTx c g nftMint (buildMintArgs_page g) TokenStandard.nonFungible
        = [Instruction.setComputeUnitLimit 600000,
           Instruction.mintV2 c.publicKey c.collectionMint c.authority nftMint
             (Option.map GuardRec.publicKey g) (buildMintArgs_page g)
             TokenStandard.nonFungible] ∧
      (buildMintTx c g nftMint (buildMintArgs_page g) TokenStandard.nonFungible).length = 2 ∧
      mintBtnHandler_page true (some c) g nftMint
        = MintAttempt.submitted
            (buildMintTx c g nftMint (buildMintArgs_page g) TokenStandard.nonFungible)
            sendOpts ∧
      sendOpts = { commitment := Commitment.finalized, skipPreflight := false } := by
  intro c g nftMint
  exact ⟨rfl, rfl, rfl, rfl⟩

/-- C6: a mint attempt with the wallet disconnected, or with the machine
record not loaded, is an early failure with the corresponding message in
both variants — no transaction is composed or submitted. -/
theorem C6_early_failure :
    ∀ (cm : Option MachineRec) (g : Option GuardRec) (nftMint : String),
      mintBtnHandler_page false cm g nftMint
        = MintAttempt.earlyFailure "Connect your wallet first." ∧
      mintBtnHandler_page true none g nftMint
        = MintAttempt.earlyFailure "Candy Machine not loaded yet. Refresh the page." ∧
      mintBtnHandler_part0 false cm g nftMint
        = MintAttempt.earlyFailure "Connect your wallet first." ∧
      mintBtnHandler_part0 true none g nftMint
        = MintAttempt.earlyFailure "Candy Machine not loaded (refresh)." := by
  intro cm g nftMint
  exact ⟨rfl, rfl, rfl, rfl⟩

/-- C7, counterexample: the `page.tsx` `getCandyMachineId` does not strip
surrounding quote characters (a quoted id stays quoted), and the Werkend
variant returns the empty string, not null, for a whitespace-only value
(which is empty after trimming). -/
theorem C7_counterexample :
    getCandyMachineId_page (some "\"A\"") = some "\"A\"" ∧
    getCandyMachineId_page (some "\"A\"") ≠ some "A" ∧
    getCandyMachineId_werkend (some " ") = some "" ∧
    getCandyMachineId_werkend (some " ") ≠ none := by
  refine ⟨rfl, by decide, by decide, by decide⟩

/-- C7, amended: the `page.tsx` variant trims surrounding whitespace only
— no quote stripping — and returns null exactly when the value is empty
after trimming; the Werkend variant trims whitespace and strips one
surrounding quote character per side, but returns null only when the raw
configured value is absent or empty before trimming. -/
theorem C7_identifier_resolution :
    (∀ env : Option String,
      (getCandyMachineId_page env = none ↔ jsTrim (env.getD "") = "") ∧
      (getCandyMachineId_page env = none ∨
         getCandyMachineId_page env = some (jsTrim (env.getD "")))) ∧
    (∀ s : String, s ≠ "" →
      getCandyMachineId_werkend (some s) = some (stripSurroundingQuotes (jsTrim s))) ∧
    getCandyMachineId_werkend none = none ∧
    getCandyMachineId_werkend (some "") = none := by
  refine ⟨?_, ?_, rfl, rfl⟩
  · intro env
    by_cases h : jsTrim (env.getD "") = "" <;>
      constructor <;> simp [getCandyMachineId_page, h]
  · intro s hs
    rw [show getCandyMachineId_werkend (some s)
          = if s = "" then none else some (stripSurroundingQuotes (jsTrim s)) from rfl,
        if_neg hs]

/-- Witness for C7: a whitespace-only configured value resolves to null in
the `page.tsx` variant, and a quoted value is unquoted by the Werkend
variant. -/
theorem C7_identifier_resolution_witness :
    getCandyMachineId_page (some "  ") = none ∧
    getCandyMachineId_werkend (some "\"A\"") = some "A" := by
  constructor
  · exact (C7_identifier_resolution.1 (some "  ")).1.mpr (by decide)
  · exact (C7_identifier_resolution.2.1 "\"A\"" (by decide)).trans (by decide)

/-- C8: when the balance read fails in the `page.tsx` balance effect (paid
mint), the only change is the non-fatal status message — the disabled
flag, counts, price and fetched records all keep their prior values. -/
theorem C8_balance_read_failure_frame :
    ∀ (st : AvailState) (r : Option Int) (cost : Rat) (e : String),
      0 < cost →
      balanceEffect_page true r cost (Except.error e) st
        = { st with mintMsg := some ("Could not read wallet balance: " ++ e) } := by
  intro st r cost e hc
  have h1 : ¬ cost ≤ 0 := not_le.mpr hc
  simp [balanceEffect_page, h1]

/-- Witness for C8: a concrete failed read with price 1 leaves
`mintDisabled` and every other field of the fresh state unchanged,
setting only the message. -/
theorem C8_balance_read_failure_frame_witness :
    (0 : Rat) < 1 ∧
    balanceEffect_page true (some 5) 1 (Except.error "boom") initState
      = { initState with mintMsg := some ("Could not read wallet balance: " ++ "boom") } :=
  ⟨by norm_num,
   C8_balance_read_failure_frame initState (some 5) 1 "boom" (by norm_num)⟩

/-- C9: the explorer URL for a minted asset is
`https://solscan.io/token/<id>` with the `?cluster=devnet` suffix
appended exactly when the resolved network is devnet; mainnet and testnet
get no suffix. -/
theorem C9_explorer_url :
    ∀ (id : String),
      explorerUrl Network.devnet id
        = "https://solscan.io/token/" ++ id ++ "?cluster=devnet" ∧
      explorerUrl Network.mainnet id = "https://solscan.io/token/" ++ id ∧
      explorerUrl Network.testnet id = "https://solscan.io/token/" ++ id ∧
      (∀ net : Network, clusterSuffix net = "?cluster=devnet" ↔ net = Network.devnet) := by
  intro id
  refine ⟨rfl, ?_, ?_, ?_⟩
  · show "https://solscan.io/token/" ++ id ++ "" = "https://solscan.io/token/" ++ id
    exact string_append_empty _
  · show "https://solscan.io/token/" ++ id ++ "" = "https://solscan.io/token/" ++ id
    exact string_append_empty _
  · intro net
    cases net <;> decide

/-- C10: in both cited balance effects, with the wallet connected, a
positive price and a positive remaining count, a balance strictly below
the price disables the mint with the insufficient-funds message, while a
balance greater than or equal to the price — including exactly equal —
leaves the mint enabled with no message change. -/
theorem C10_strict_balance_comparison :
    ∀ (st : AvailState) (r : Int) (cost sol : Rat),
      0 < cost → 0 < r →
      ((sol < cost →
          balanceEffect_page true (some r) cost (Except.ok sol) st
            = { st with mintMsg := some "Add more SOL to your wallet.",
                        mintDisabled := true } ∧
          balanceEffect_part0 true (some r) cost (Except.ok sol) st
            = { st with mintMsg := some "Not enough SOL in wallet.",
                        mintDisabled := true }) ∧
       (cost ≤ sol →
          balanceEffect_page true (some r) cost (Except.ok sol) st
            = { st with mintDisabled := false } ∧
          balanceEffect_part0 true (some r) cost (Except.ok sol) st
            = { st with mintDisabled := false })) := by
  intro st r cost sol hc hr
  have hc0 : ¬ cost ≤ 0 := not_le.mpr hc
  have hrp : remainingPositive (some r) = true := by
    simp [remainingPositive, hr]
  have hrnp : remainingNonPos (some r) = false := by
    simp only [remainingNonPos]
    exact decide_eq_false (not_le.mpr hr)
  constructor
  · intro hs
    constructor
    · simp [balanceEffect_page, hc0, hs]
    · simp [balanceEffect_part0, hrnp, hc0, hs]
  · intro hs
    have hs2 : ¬ sol < cost := not_lt.mpr hs
    constructor
    · simp [balanceEffect_page, hc0, hs2, hrp]
    · simp [balanceEffect_part0, hrnp, hc0, hs2]

/-- Witness for C10: with price 1, remaining 1 and a balance of exactly 1,
the mint stays enabled in the `page.tsx` balance effect. -/
theorem C10_strict_balance_comparison_witness :
    (0 : Rat) < 1 ∧ (0 : Int) < 1 ∧
    balanceEffect_page true (some 1) 1 (Except.ok 1) initState
      = { initState with mintDisabled := false } :=
  ⟨by norm_num, by norm_num,
   ((C10_strict_balance_comparison initState 1 1 1 (by norm_num) (by norm_num)).2
     (le_refl 1)).1⟩

end IshvaraMint
